import Mathlib

/-!
Shallow embedding of the Mars-lander guidance controller (src/lander.py).

Terrain points, the landing zone, telemetry, the state machine
(Hover / StopOverLandingSpot a.k.a. ApproachZone / Descend / Stop a.k.a.
BleedSpeed), the per-tick rotation/power control laws and the
round-then-clamp command encoder are translated directly from the source.
Real-valued desired outputs are modelled as rationals; Python `round`
(round-half-to-even) is modelled by `pyRound`; a Python function that can
fall off the end (returning `None`) or crash on a bad call is modelled
with `Option`.
-/

/-- Terrain vertex, from `Point = collections.namedtuple('Point', ['x', 'y'])`. -/
structure Point where
  x : Int
  y : Int
deriving DecidableEq

/-- From `class LandingSpot`: stores the two terrain points it was built from. -/
structure LandingSpot where
  start : Point
  stop : Point
deriving DecidableEq

/-- `self.left = start.x` in `LandingSpot.__init__`. -/
def LandingSpot.left (s : LandingSpot) : Int := s.start.x

/-- `self.right = end.x` in `LandingSpot.__init__`. -/
def LandingSpot.right (s : LandingSpot) : Int := s.stop.x

/-- `self.height = start.y` in `LandingSpot.__init__`. -/
def LandingSpot.height (s : LandingSpot) : Int := s.start.y

/-- `Surface.find_safe_spot`: walks adjacent pairs, returns the first pair with
equal heights at least 1000 apart; the final `raise` (and the empty-list
index error) is modelled by `none`. -/
def Surface.find_safe_spot : List Point → Option LandingSpot
  | old_spot :: new_spot :: rest =>
      if new_spot.y = old_spot.y ∧ new_spot.x - old_spot.x ≥ 1000 then
        some ⟨old_spot, new_spot⟩
      else
        Surface.find_safe_spot (new_spot :: rest)
  | _ => none

/-- One telemetry record, the seven integers of `Lander.update_state`. -/
structure Telemetry where
  x : Int
  y : Int
  speed_h : Int
  speed_v : Int
  fuel : Int
  rotate : Int
  power : Int
deriving DecidableEq

/-- `Lander.is_over_landing_spot`: `self.landing_spot.left <= self.x <= self.landing_spot.right`. -/
def Lander.is_over_landing_spot (z : LandingSpot) (x : Int) : Prop :=
  z.left ≤ x ∧ x ≤ z.right

instance (z : LandingSpot) (x : Int) : Decidable (Lander.is_over_landing_spot z x) :=
  inferInstanceAs (Decidable (z.left ≤ x ∧ x ≤ z.right))

/-- `Lander.is_left_of_landing_spot`: `self.x < self.landing_spot.left`. -/
def Lander.is_left_of_landing_spot (z : LandingSpot) (x : Int) : Prop :=
  x < z.left

instance (z : LandingSpot) (x : Int) : Decidable (Lander.is_left_of_landing_spot z x) :=
  inferInstanceAs (Decidable (x < z.left))

/-- `Lander.is_right_of_landing_spot`: `self.x > self.landing_spot.right`. -/
def Lander.is_right_of_landing_spot (z : LandingSpot) (x : Int) : Prop :=
  x > z.right

instance (z : LandingSpot) (x : Int) : Decidable (Lander.is_right_of_landing_spot z x) :=
  inferInstanceAs (Decidable (x > z.right))

/-- `Lander.altitude`: `self.y - self.landing_spot.height`. -/
def Lander.altitude (z : LandingSpot) (y : Int) : Int :=
  y - z.height

/-- `Lander.distance_to_landing_spot`: the Python property returns
`x - left` when left of the spot, `x - right` when right of it, and falls
off the end (Python `None`, modelled `none`) when over the spot. -/
def Lander.distance_to_landing_spot (z : LandingSpot) (x : Int) : Option Int :=
  if Lander.is_left_of_landing_spot z x then some (x - z.left)
  else if Lander.is_right_of_landing_spot z x then some (x - z.right)
  else none

/-- Modelled from the spec: the spec demands that querying `distanceToZone`
while over the zone "fail fast (assertion/fatal)"; this definition follows
those words (an `Except.error` when over the zone) and exists only to be
compared with `Lander.distance_to_landing_spot`, the behaviour of the code. -/
def Lander.distance_to_landing_spot_fail_fast (z : LandingSpot) (x : Int) :
    Except String Int :=
  if Lander.is_left_of_landing_spot z x then Except.ok (x - z.left)
  else if Lander.is_right_of_landing_spot z x then Except.ok (x - z.right)
  else Except.error "distance queried while over the landing spot"

/-- `State.MAX_ROTATION`. -/
def State.MAX_ROTATION : Int := 90

/-- `State.ROTATION_RATE_OF_CHANGE` (declared, never used by a control law). -/
def State.ROTATION_RATE_OF_CHANGE : Int := 15

/-- `State.MIN_POWER`. -/
def State.MIN_POWER : Int := 0

/-- `State.MAX_POWER`. -/
def State.MAX_POWER : Int := 4

/-- Python 3 `round` to an integer: nearest integer, ties to even. -/
def pyRound (q : Rat) : Int :=
  if q - (q.floor : Rat) < 1/2 then q.floor
  else if 1/2 < q - (q.floor : Rat) then q.floor + 1
  else if q.floor % 2 = 0 then q.floor else q.floor + 1

/-- `State.control_rotate`: round the desired rotation, then clamp it to
`[-rotate_limit, rotate_limit]`; `rotate_limit` is set to `MAX_ROTATION`
in `State.__init__` and never reassigned. -/
def State.control_rotate (update_rotation_out : Rat) : Int :=
  let desired_rotation := pyRound update_rotation_out
  if desired_rotation > State.MAX_ROTATION then State.MAX_ROTATION
  else if desired_rotation < -State.MAX_ROTATION then -State.MAX_ROTATION
  else desired_rotation

/-- `State.control_power`: round the desired power, then clamp it to
`[MIN_POWER, MAX_POWER]`. -/
def State.control_power (update_power_out : Rat) : Int :=
  let desired_power := pyRound update_power_out
  if desired_power < State.MIN_POWER then State.MIN_POWER
  else if desired_power > State.MAX_POWER then State.MAX_POWER
  else desired_power

/-- The four state classes of the source (`Hover`, `StopOverLandingSpot`,
`Descend`, `Stop`); a value of this type models a class object used as a
next-state designator. -/
inductive StateCls
  | hover
  | stopOverLandingSpot
  | descend
  | stop
deriving DecidableEq

/-- An instantiated state object: its class together with the value its
`next_state` attribute holds after `__init__` ran. -/
structure StateObj where
  cls : StateCls
  next_state : Option StateCls
deriving DecidableEq

/-- `Hover.__init__(lander, next_state=None)`: stores `next_state` as given. -/
def mkHover (next : Option StateCls) : StateObj :=
  ⟨StateCls.hover, next⟩

/-- `StopOverLandingSpot.__init__(lander, next_state)`: the superclass call
stores the argument, but the constructor then overwrites it with
`self.next_state = Descend`, so the stored value is always `Descend`. -/
def mkStopOverLandingSpot (next : Option StateCls) : StateObj :=
  ⟨StateCls.stopOverLandingSpot, some StateCls.descend⟩

/-- `Descend.__init__(lander, next_state=None)`: stores `next_state` as given. -/
def mkDescend (next : Option StateCls) : StateObj :=
  ⟨StateCls.descend, next⟩

/-- `Stop.__init__(lander, next_state)`: stores `next_state` as given. -/
def mkStop (next : Option StateCls) : StateObj :=
  ⟨StateCls.stop, next⟩

/-- Calling a state class with one argument, `cls(lander)`: `Hover` and
`Descend` default `next_state` to `None`; `StopOverLandingSpot` and `Stop`
require a `next_state` argument, so a one-argument call raises (modelled
`none`). -/
def instantiate1 : StateCls → Option StateObj
  | StateCls.hover => some (mkHover none)
  | StateCls.descend => some (mkDescend none)
  | StateCls.stopOverLandingSpot => none
  | StateCls.stop => none

/-- Calling a state class with two arguments, `cls(lander, next)`. -/
def instantiate2 (c : StateCls) (next : Option StateCls) : StateObj :=
  match c with
  | StateCls.hover => mkHover next
  | StateCls.descend => mkDescend next
  | StateCls.stopOverLandingSpot => mkStopOverLandingSpot next
  | StateCls.stop => mkStop next

/-- `StopOverLandingSpot.MAX_SPEED`. -/
def StopOverLandingSpot.MAX_SPEED : Int := 20

/-- `StopOverLandingSpot.MAX_ANGLE`. -/
def StopOverLandingSpot.MAX_ANGLE : Int := 45

/-- `StopOverLandingSpot.HOVER_ANGLE`. -/
def StopOverLandingSpot.HOVER_ANGLE : Int := 0

/-- `self.scale = 0.04` in `StopOverLandingSpot.__init__`. -/
def StopOverLandingSpot.scale : Rat := 0.04

/-- `Descend.SAFE_DESCENT_SPEED`. -/
def Descend.SAFE_DESCENT_SPEED : Int := -18

/-- `Descend.LANDING_ALTITUDE`. -/
def Descend.LANDING_ALTITUDE : Int := 100

/-- `self.scale = 0.5` in `Stop.__init__`. -/
def Stop.scale : Rat := 0.5

/-- `self.cutoff = 20` in `Stop.__init__`. -/
def Stop.cutoff : Int := 20

/-- `Hover.update_rotation`: `return self.lander.speed_h`. -/
def Hover.update_rotation (t : Telemetry) : Rat :=
  (t.speed_h : Rat)

/-- `Hover.update_power`: 3 if `speed_v > 0` else 4. -/
def Hover.update_power (t : Telemetry) : Rat :=
  if t.speed_v > 0 then 3 else 4

/-- `StopOverLandingSpot.is_too_fast`:
`not (-MAX_SPEED <= speed_h <= MAX_SPEED)`. -/
def StopOverLandingSpot.is_too_fast (h : Int) : Prop :=
  ¬ (-StopOverLandingSpot.MAX_SPEED ≤ h ∧ h ≤ StopOverLandingSpot.MAX_SPEED)

instance (h : Int) : Decidable (StopOverLandingSpot.is_too_fast h) :=
  inferInstanceAs (Decidable (¬ _))

/-- `StopOverLandingSpot.has_safe_speed`:
`-MAX_SPEED <= speed_h <= MAX_SPEED`. -/
def StopOverLandingSpot.has_safe_speed (h : Int) : Prop :=
  -StopOverLandingSpot.MAX_SPEED ≤ h ∧ h ≤ StopOverLandingSpot.MAX_SPEED

instance (h : Int) : Decidable (StopOverLandingSpot.has_safe_speed h) :=
  inferInstanceAs (Decidable (_ ∧ _))

/-- `StopOverLandingSpot.move_towards_landing_spot`: proportional steering
toward the spot, capped by `MAX_ANGLE` / `HOVER_ANGLE`; falls off the end
(Python `None`) when the lander is over the spot. -/
def StopOverLandingSpot.move_towards_landing_spot (z : LandingSpot) (t : Telemetry) :
    Option Rat :=
  if Lander.is_left_of_landing_spot z t.x then
    if t.speed_h < StopOverLandingSpot.MAX_SPEED then
      (Lander.distance_to_landing_spot z t.x).map
        (fun d => (d : Rat) * StopOverLandingSpot.scale)
    else if t.speed_h > StopOverLandingSpot.MAX_SPEED then
      some (StopOverLandingSpot.MAX_ANGLE : Rat)
    else
      some (StopOverLandingSpot.HOVER_ANGLE : Rat)
  else if Lander.is_right_of_landing_spot z t.x then
    if t.speed_h > -StopOverLandingSpot.MAX_SPEED then
      (Lander.distance_to_landing_spot z t.x).map
        (fun d => (d : Rat) * StopOverLandingSpot.scale)
    else if t.speed_h < -StopOverLandingSpot.MAX_SPEED then
      some (-(StopOverLandingSpot.MAX_ANGLE : Rat))
    else
      some (StopOverLandingSpot.HOVER_ANGLE : Rat)
  else none

/-- `StopOverLandingSpot.update_power`: 4 when low and off the spot; else 3
while `speed_v > -18`, otherwise 4. -/
def StopOverLandingSpot.update_power (z : LandingSpot) (t : Telemetry) : Rat :=
  if Lander.altitude z t.y < 100 ∧ ¬ Lander.is_over_landing_spot z t.x then 4
  else if t.speed_v > -18 then 3
  else 4

/-- `Descend.update_rotation`: correct horizontal speed while above
`LANDING_ALTITUDE`, otherwise hold level. -/
def Descend.update_rotation (z : LandingSpot) (t : Telemetry) : Rat :=
  if Lander.altitude z t.y > Descend.LANDING_ALTITUDE then (t.speed_h : Rat) else 0

/-- `Descend.is_not_safe_to_land`: low altitude and not over the spot. -/
def Descend.is_not_safe_to_land (z : LandingSpot) (t : Telemetry) : Prop :=
  Lander.altitude z t.y < Descend.LANDING_ALTITUDE ∧
    ¬ Lander.is_over_landing_spot z t.x

instance (z : LandingSpot) (t : Telemetry) : Decidable (Descend.is_not_safe_to_land z t) :=
  inferInstanceAs (Decidable (_ ∧ _))

/-- `Descend.descent_is_too_fast`: `speed_v < SAFE_DESCENT_SPEED`. -/
def Descend.descent_is_too_fast (t : Telemetry) : Prop :=
  t.speed_v < Descend.SAFE_DESCENT_SPEED

instance (t : Telemetry) : Decidable (Descend.descent_is_too_fast t) :=
  inferInstanceAs (Decidable (_ < _))

/-- `Descend.update_power`. -/
def Descend.update_power (z : LandingSpot) (t : Telemetry) : Rat :=
  if Descend.is_not_safe_to_land z t then 4
  else if Descend.descent_is_too_fast t then 4
  else 3

/-- `Stop.update_rotation`, but only its own step: `Sum.inl st2` models
`self.lander.state = st2` followed by `return self.lander.state.update_rotation()`
(the tail call is performed by `update_rotation` below); `Sum.inr d` models
`return d`.  Likewise for the other classes:

* `Hover.update_rotation` returns `speed_h`;
* `Descend.update_rotation` never transitions;
* `StopOverLandingSpot.update_rotation` dispatches to `transition_to_stop`
  (which assigns `Stop(lander, StopOverLandingSpot)`),
  `stop_and_transition_to_next_state` (which, at safe speed, assigns
  `self.next_state(self.lander)` — a one-argument call), or
  `move_towards_landing_spot`;
* `Stop.update_rotation` assigns `self.next_state(self.lander, None)` when
  `-cutoff <= speed_h <= cutoff`, else returns `speed_h * scale`.

A `none` models a Python crash (calling `None`, or a constructor with a
missing required argument, or returning `None` where a number is due). -/
def rotation_once (st : StateObj) (z : LandingSpot) (t : Telemetry) :
    Option (StateObj ⊕ Rat) :=
  match st.cls with
  | StateCls.hover => some (Sum.inr (Hover.update_rotation t))
  | StateCls.descend => some (Sum.inr (Descend.update_rotation z t))
  | StateCls.stopOverLandingSpot =>
      if StopOverLandingSpot.is_too_fast t.speed_h then
        some (Sum.inl (mkStop (some StateCls.stopOverLandingSpot)))
      else if Lander.is_over_landing_spot z t.x then
        if StopOverLandingSpot.has_safe_speed t.speed_h then
          match st.next_state with
          | some c => (instantiate1 c).map Sum.inl
          | none => none
        else
          some (Sum.inl (mkStop (some StateCls.stopOverLandingSpot)))
      else
        (StopOverLandingSpot.move_towards_landing_spot z t).map Sum.inr
  | StateCls.stop =>
      if -Stop.cutoff ≤ t.speed_h ∧ t.speed_h ≤ Stop.cutoff then
        match st.next_state with
        | some c => some (Sum.inl (instantiate2 c none))
        | none => none
      else
        some (Sum.inr ((t.speed_h : Rat) * Stop.scale))

/-- Chains `rotation_once` steps: the active state's `update_rotation()`
call, following every in-tick transition until a state returns a number.
The fuel bounds the delegation chain (three suffices for every state the
machine can reach); running out of fuel models non-termination. -/
def update_rotation : Nat → StateObj → LandingSpot → Telemetry → Option (StateObj × Rat)
  | 0, _, _, _ => none
  | fuel + 1, st, z, t =>
    match rotation_once st z t with
    | none => none
    | some (Sum.inr d) => some (st, d)
    | some (Sum.inl st2) => update_rotation fuel st2 z t

/-- Dispatch of `update_power` on the active state's class (`Stop` inherits
`Hover.update_power`). -/
def StateObj.update_power (st : StateObj) (z : LandingSpot) (t : Telemetry) : Rat :=
  match st.cls with
  | StateCls.hover => Hover.update_power t
  | StateCls.stop => Hover.update_power t
  | StateCls.stopOverLandingSpot => StopOverLandingSpot.update_power z t
  | StateCls.descend => Descend.update_power z t

/-- One tick of `Lander.control()`: `control_rotate` is evaluated first and
may replace the active state; `control_power` then reads the (possibly new)
active state. -/
def tick (st : StateObj) (z : LandingSpot) (t : Telemetry) :
    Option (StateObj × Int × Int) :=
  match update_rotation 3 st z t with
  | none => none
  | some (st2, d) =>
      some (st2, State.control_rotate d, State.control_power (st2.update_power z t))

/-- The `StopOverLandingSpot` object as the machine ever builds it (the
constructor forces `next_state = Descend`); the spec calls this state
ApproachZone. -/
def ApproachObj : StateObj := mkStopOverLandingSpot none

/-- The `Stop` object as built by `transition_to_stop`:
`Stop(lander, StopOverLandingSpot)`; the spec calls this state BleedSpeed. -/
def BleedSpeedObj : StateObj := mkStop (some StateCls.stopOverLandingSpot)

/-- The `Descend` object as built by `stop_and_transition_to_next_state`:
`Descend(lander)`. -/
def DescendObj : StateObj := mkDescend none

/-- The state objects the machine can ever hold once started in
ApproachZone. -/
def GoodState (s : StateObj) : Prop :=
  s = ApproachObj ∨ s = BleedSpeedObj ∨ s = DescendObj

instance (s : StateObj) : Decidable (GoodState s) :=
  inferInstanceAs (Decidable (_ ∨ _ ∨ _))

/-- A sample landing zone, the one the spec's scenarios use:
terrain points (0,100) and (1000,100). -/
def zone0 : LandingSpot := ⟨⟨0, 100⟩, ⟨1000, 100⟩⟩

/-- The qualifying test `find_safe_spot` applies to an adjacent pair of
terrain points. -/
def safe_pair (a b : Point) : Bool :=
  decide (b.y = a.y ∧ b.x - a.x ≥ 1000)

theorem rat_floor_eq_floor (q : Rat) : q.floor = ⌊q⌋ :=
  (Rat.floor_def' q).trans Rat.floor_def.symm

theorem find_safe_spot_eq_find (ps : List Point) :
    Surface.find_safe_spot ps =
      ((ps.zip ps.tail).find? fun q => safe_pair q.1 q.2).map fun q => ⟨q.1, q.2⟩ := by
  induction ps with
  | nil => rfl
  | cons a rest ih =>
    cases rest with
    | nil => rfl
    | cons b rs =>
      by_cases h : b.y = a.y ∧ b.x - a.x ≥ 1000
      · rw [Surface.find_safe_spot, if_pos h]
        simp [List.find?_cons, safe_pair, h]
      · rw [Surface.find_safe_spot, if_neg h, ih]
        simp [List.find?_cons, safe_pair, h]

theorem not_too_fast_safe {h : Int} (hf : ¬ StopOverLandingSpot.is_too_fast h) :
    StopOverLandingSpot.has_safe_speed h := by
  simpa [StopOverLandingSpot.is_too_fast, StopOverLandingSpot.has_safe_speed] using hf

theorem approach_eval3 (z : LandingSpot) (t : Telemetry) :
    update_rotation 3 ApproachObj z t =
      if StopOverLandingSpot.is_too_fast t.speed_h then
        some (BleedSpeedObj, (t.speed_h : Rat) * Stop.scale)
      else if Lander.is_over_landing_spot z t.x then
        some (DescendObj, Descend.update_rotation z t)
      else
        (StopOverLandingSpot.move_towards_landing_spot z t).map fun r => (ApproachObj, r) := by
  by_cases hf : StopOverLandingSpot.is_too_fast t.speed_h
  · have hns : ¬ (-Stop.cutoff ≤ t.speed_h ∧ t.speed_h ≤ Stop.cutoff) := by
      simp only [StopOverLandingSpot.is_too_fast, StopOverLandingSpot.MAX_SPEED] at hf
      simpa [Stop.cutoff] using hf
    simp [update_rotation, rotation_once, ApproachObj, mkStopOverLandingSpot, BleedSpeedObj,
      mkStop, hf, hns]
  · by_cases hov : Lander.is_over_landing_spot z t.x
    · simp [update_rotation, rotation_once, ApproachObj, mkStopOverLandingSpot, hf, hov,
        not_too_fast_safe hf, instantiate1, DescendObj, mkDescend]
    · simp only [update_rotation, rotation_once, ApproachObj, mkStopOverLandingSpot,
        hf, hov, if_neg, if_pos, ite_false, ite_true]
      cases StopOverLandingSpot.move_towards_landing_spot z t <;>
        simp [update_rotation]

theorem approach_eval2 (z : LandingSpot) (t : Telemetry) :
    update_rotation 2 ApproachObj z t =
      if StopOverLandingSpot.is_too_fast t.speed_h then
        some (BleedSpeedObj, (t.speed_h : Rat) * Stop.scale)
      else if Lander.is_over_landing_spot z t.x then
        some (DescendObj, Descend.update_rotation z t)
      else
        (StopOverLandingSpot.move_towards_landing_spot z t).map fun r => (ApproachObj, r) := by
  by_cases hf : StopOverLandingSpot.is_too_fast t.speed_h
  · have hns : ¬ (-Stop.cutoff ≤ t.speed_h ∧ t.speed_h ≤ Stop.cutoff) := by
      simp only [StopOverLandingSpot.is_too_fast, StopOverLandingSpot.MAX_SPEED] at hf
      simpa [Stop.cutoff] using hf
    simp [update_rotation, rotation_once, ApproachObj, mkStopOverLandingSpot, BleedSpeedObj,
      mkStop, hf, hns]
  · by_cases hov : Lander.is_over_landing_spot z t.x
    · simp [update_rotation, rotation_once, ApproachObj, mkStopOverLandingSpot, hf, hov,
        not_too_fast_safe hf, instantiate1, DescendObj, mkDescend]
    · simp only [update_rotation, rotation_once, ApproachObj, mkStopOverLandingSpot,
        hf, hov, if_neg, if_pos, ite_false, ite_true]
      cases StopOverLandingSpot.move_towards_landing_spot z t <;>
        simp [update_rotation]

theorem approach_fuel_23 (z : LandingSpot) (t : Telemetry) :
    update_rotation 2 ApproachObj z t = update_rotation 3 ApproachObj z t := by
  rw [approach_eval2, approach_eval3]

theorem stop_eval3 (z : LandingSpot) (t : Telemetry) :
    update_rotation 3 BleedSpeedObj z t =
      if -Stop.cutoff ≤ t.speed_h ∧ t.speed_h ≤ Stop.cutoff then
        update_rotation 2 ApproachObj z t
      else
        some (BleedSpeedObj, (t.speed_h : Rat) * Stop.scale) := by
  by_cases hc : -Stop.cutoff ≤ t.speed_h ∧ t.speed_h ≤ Stop.cutoff
  · rw [if_pos hc]
    have : rotation_once BleedSpeedObj z t = some (Sum.inl ApproachObj) := by
      simp [rotation_once, BleedSpeedObj, mkStop, hc, instantiate2, ApproachObj,
        mkStopOverLandingSpot]
    rw [show (3 : Nat) = 2 + 1 from rfl, update_rotation, this]
  · rw [if_neg hc]
    simp [update_rotation, rotation_once, BleedSpeedObj, mkStop, hc]

theorem rotation_hop_cases (s : StateObj) (z : LandingSpot) (t : Telemetry) (s2 : StateObj)
    (hg : GoodState s) (h : rotation_once s z t = some (Sum.inl s2)) :
    (s = ApproachObj ∧ s2 = BleedSpeedObj) ∨ (s = ApproachObj ∧ s2 = DescendObj) ∨
      (s = BleedSpeedObj ∧ s2 = ApproachObj) := by
  rcases hg with rfl | rfl | rfl
  · simp only [rotation_once, ApproachObj, mkStopOverLandingSpot, instantiate1,
      Option.map_some] at h
    split_ifs at h with hf hov hsafe
    · left
      simp only [Option.some.injEq, Sum.inl.injEq] at h
      exact ⟨rfl, h.symm⟩
    · right; left
      simp only [Option.map_some', Option.some.injEq, Sum.inl.injEq] at h
      exact ⟨rfl, h.symm⟩
    · left
      simp only [Option.some.injEq, Sum.inl.injEq] at h
      exact ⟨rfl, h.symm⟩
    · exfalso
      cases hm : StopOverLandingSpot.move_towards_landing_spot z t <;> simp [hm] at h
  · simp only [rotation_once, BleedSpeedObj, mkStop, instantiate2, mkStopOverLandingSpot] at h
    split_ifs at h with hc
    · right; right
      simp only [Option.some.injEq, Sum.inl.injEq] at h
      exact ⟨rfl, h.symm⟩
    · simp at h
  · simp [rotation_once, DescendObj, mkDescend] at h

/-- C1: for every telemetry record and every active control state, the
command emitted for the tick satisfies -90 ≤ rotationDeg ≤ 90 and
0 ≤ powerLevel ≤ 4: `control_rotate`/`control_power` round the state's
real-valued desired value to an integer and clamp it into [-90, 90]
resp. [0, 4], for every real-valued desired input. -/
theorem C1_command_envelope :
    (∀ d : Rat, -90 ≤ State.control_rotate d ∧ State.control_rotate d ≤ 90 ∧
      0 ≤ State.control_power d ∧ State.control_power d ≤ 4)
    ∧ (∀ (st : StateObj) (z : LandingSpot) (t : Telemetry) (out : StateObj × Int × Int),
        tick st z t = some out →
          -90 ≤ out.2.1 ∧ out.2.1 ≤ 90 ∧ 0 ≤ out.2.2 ∧ out.2.2 ≤ 4) := by
  have key : ∀ d : Rat, -90 ≤ State.control_rotate d ∧ State.control_rotate d ≤ 90 ∧
      0 ≤ State.control_power d ∧ State.control_power d ≤ 4 := by
    intro d
    simp only [State.control_rotate, State.control_power, State.MAX_ROTATION,
      State.MIN_POWER, State.MAX_POWER]
    split_ifs <;> omega
  refine ⟨key, ?_⟩
  intro st z t out h
  unfold tick at h
  cases hu : update_rotation 3 st z t with
  | none => rw [hu] at h; cases h
  | some p =>
    rcases p with ⟨st2, d⟩
    rw [hu] at h
    simp only [Option.some.injEq] at h
    subst h
    exact ⟨(key d).1, (key d).2.1, (key (st2.update_power z t)).2.2.1,
      (key (st2.update_power z t)).2.2.2⟩

/-- Witness for C1 at a concrete state and telemetry record. -/
theorem C1_command_envelope_witness :
    -90 ≤ (0 : Int) ∧ (0 : Int) ≤ 90 ∧ 0 ≤ (3 : Int) ∧ (3 : Int) ≤ 4 :=
  C1_command_envelope.2 DescendObj zone0 ⟨500, 150, 10, -18, 500, 0, 0⟩
    (DescendObj, 0, 3) (by
      norm_num [tick, update_rotation, rotation_once, DescendObj, mkDescend,
        Descend.update_rotation, Descend.update_power, Descend.is_not_safe_to_land,
        Descend.descent_is_too_fast, Descend.SAFE_DESCENT_SPEED, Descend.LANDING_ALTITUDE,
        Lander.altitude, Lander.is_over_landing_spot, LandingSpot.left, LandingSpot.right,
        LandingSpot.height, zone0, StateObj.update_power, State.control_rotate,
        State.control_power, State.MAX_ROTATION, State.MIN_POWER, State.MAX_POWER,
        pyRound, rat_floor_eq_floor])

/-- C2: `find_safe_spot` returns the first adjacent pair (a, b) in terrain
order with a.y = b.y and b.x - a.x ≥ 1000 as the landing spot whose
left/right/height are a.x/b.x/a.y, and fails iff no such adjacent pair
exists; on [(0,100),(1000,100),(1500,200)] it returns left 0, right 1000,
height 100. -/
theorem C2_find_safe_spot :
    (∀ ps : List Point, Surface.find_safe_spot ps =
      ((ps.zip ps.tail).find? fun q => safe_pair q.1 q.2).map fun q => ⟨q.1, q.2⟩)
    ∧ (∀ ps : List Point, Surface.find_safe_spot ps = none ↔
        ∀ q ∈ ps.zip ps.tail, ¬ (q.2.y = q.1.y ∧ q.2.x - q.1.x ≥ 1000))
    ∧ Surface.find_safe_spot [⟨0, 100⟩, ⟨1000, 100⟩, ⟨1500, 200⟩]
        = some ⟨⟨0, 100⟩, ⟨1000, 100⟩⟩
    ∧ (Surface.find_safe_spot [⟨0, 100⟩, ⟨1000, 100⟩, ⟨1500, 200⟩]).map
        (fun z => (z.left, z.right, z.height)) = some (0, 1000, 100) := by
  refine ⟨find_safe_spot_eq_find, ?_, by decide, by decide⟩
  intro ps
  rw [find_safe_spot_eq_find]
  simp [List.find?_eq_none, safe_pair]

/-- Witness for C2: a terrain whose only flat pair is narrower than 1000
has no landing spot. -/
theorem C2_find_safe_spot_witness :
    Surface.find_safe_spot [⟨0, 100⟩, ⟨500, 100⟩] = none :=
  (C2_find_safe_spot.2.1 _).mpr (by decide)

/-- C3: from ApproachZone (StopOverLandingSpot), the transition to Descend
fires in a tick exactly when the lander is over the spot and |speed_h| ≤ 20;
at x = zone.left with speed_h = 20 the tick lands in Descend, with
speed_h = 21 it lands in BleedSpeed (Stop). -/
theorem C3_approach_descend_guard :
    (∀ (z : LandingSpot) (t : Telemetry) (st2 : StateObj) (d : Rat),
        update_rotation 3 ApproachObj z t = some (st2, d) →
          (st2.cls = StateCls.descend ↔
            (Lander.is_over_landing_spot z t.x ∧ -20 ≤ t.speed_h ∧ t.speed_h ≤ 20)))
    ∧ (update_rotation 3 ApproachObj zone0 ⟨0, 2000, 20, 0, 500, 0, 0⟩).map (fun p => p.1.cls)
        = some StateCls.descend
    ∧ (update_rotation 3 ApproachObj zone0 ⟨0, 2000, 21, 0, 500, 0, 0⟩).map (fun p => p.1.cls)
        = some StateCls.stop := by
  refine ⟨?_, by decide, by decide⟩
  intro z t st2 d h
  rw [approach_eval3] at h
  split_ifs at h with hf hov
  · simp only [Option.some.injEq, Prod.mk.injEq] at h
    obtain ⟨h1, -⟩ := h
    simp only [StopOverLandingSpot.is_too_fast, StopOverLandingSpot.MAX_SPEED] at hf
    constructor
    · intro hcls
      rw [← h1] at hcls
      simp [BleedSpeedObj, mkStop] at hcls
    · rintro ⟨-, hb1, hb2⟩
      exact absurd ⟨hb1, hb2⟩ hf
  · simp only [Option.some.injEq, Prod.mk.injEq] at h
    obtain ⟨h1, -⟩ := h
    simp only [StopOverLandingSpot.is_too_fast, StopOverLandingSpot.MAX_SPEED, not_not] at hf
    constructor
    · intro _
      exact ⟨hov, hf.1, hf.2⟩
    · intro _
      rw [← h1]
      rfl
  · cases hm : StopOverLandingSpot.move_towards_landing_spot z t with
    | none => rw [hm] at h; cases h
    | some r =>
      rw [hm] at h
      simp only [Option.map_some', Option.some.injEq, Prod.mk.injEq] at h
      obtain ⟨h1, -⟩ := h
      constructor
      · intro hcls
        rw [← h1] at hcls
        simp [ApproachObj, mkStopOverLandingSpot] at hcls
      · rintro ⟨hov2, -⟩
        exact absurd hov2 hov

/-- Witness for C3 at the boundary scenario x = zone.left, speed_h = 20. -/
theorem C3_approach_descend_guard_witness :
    DescendObj.cls = StateCls.descend ↔
      (Lander.is_over_landing_spot zone0 0 ∧ -20 ≤ (20 : Int) ∧ (20 : Int) ≤ 20) :=
  C3_approach_descend_guard.1 zone0 ⟨0, 2000, 20, 0, 500, 0, 0⟩ DescendObj 20 (by decide)

/-- C4: in BleedSpeed (Stop), when |speed_h| ≤ 20 the tick delegates to the
designated next state and emits exactly the command that state alone would
produce for the same telemetry; otherwise the desired rotation is
speed_h * 0.5, e.g. a command of -25 for speed_h = -50. -/
theorem C4_bleed_speed :
    (∀ (z : LandingSpot) (t : Telemetry), -20 ≤ t.speed_h → t.speed_h ≤ 20 →
        tick BleedSpeedObj z t = tick ApproachObj z t)
    ∧ (∀ (z : LandingSpot) (t : Telemetry), ¬ (-20 ≤ t.speed_h ∧ t.speed_h ≤ 20) →
        update_rotation 3 BleedSpeedObj z t =
          some (BleedSpeedObj, (t.speed_h : Rat) * Stop.scale))
    ∧ (tick BleedSpeedObj zone0 ⟨1500, 2000, -50, 0, 500, 0, 0⟩).map (fun out => out.2.1)
        = some (-25) := by
  refine ⟨?_, ?_, by
    norm_num [tick, update_rotation, rotation_once, BleedSpeedObj, mkStop, Stop.cutoff,
      Stop.scale, StateObj.update_power, Hover.update_power, State.control_rotate,
      State.control_power, State.MAX_ROTATION, State.MIN_POWER, State.MAX_POWER,
      pyRound, rat_floor_eq_floor]⟩
  · intro z t h1 h2
    have hc : -Stop.cutoff ≤ t.speed_h ∧ t.speed_h ≤ Stop.cutoff := by
      constructor <;> simp only [Stop.cutoff] <;> omega
    unfold tick
    rw [stop_eval3, if_pos hc, approach_fuel_23]
  · intro z t hc
    have hc2 : ¬ (-Stop.cutoff ≤ t.speed_h ∧ t.speed_h ≤ Stop.cutoff) := by
      simpa [Stop.cutoff] using hc
    rw [stop_eval3, if_neg hc2]

/-- Witness for C4: at the Descend hand-off boundary the transitioning
BleedSpeed tick equals the ApproachZone tick. -/
theorem C4_bleed_speed_witness :
    tick BleedSpeedObj zone0 ⟨0, 2000, 20, 0, 500, 0, 0⟩ =
      tick ApproachObj zone0 ⟨0, 2000, 20, 0, 500, 0, 0⟩ :=
  C4_bleed_speed.1 zone0 ⟨0, 2000, 20, 0, 500, 0, 0⟩ (by decide) (by decide)

/-- C5: from ApproachZone, the only states ever reachable are ApproachZone,
BleedSpeed and Descend; the only transitions taken are
ApproachZone → BleedSpeed, ApproachZone → Descend and
BleedSpeed → ApproachZone; Descend never transitions; Hover never becomes
the active state. -/
theorem C5_state_machine :
    GoodState ApproachObj
    ∧ (∀ (s : StateObj) (z : LandingSpot) (t : Telemetry) (s2 : StateObj),
        GoodState s → rotation_once s z t = some (Sum.inl s2) →
          ((s = ApproachObj ∧ s2 = BleedSpeedObj) ∨ (s = ApproachObj ∧ s2 = DescendObj) ∨
            (s = BleedSpeedObj ∧ s2 = ApproachObj)))
    ∧ (∀ (z : LandingSpot) (t : Telemetry),
        rotation_once DescendObj z t = some (Sum.inr (Descend.update_rotation z t)))
    ∧ (∀ (s : StateObj) (z : LandingSpot) (t : Telemetry) (s2 : StateObj),
        GoodState s → rotation_once s z t = some (Sum.inl s2) →
          GoodState s2 ∧ s2.cls ≠ StateCls.hover) := by
  refine ⟨Or.inl rfl, rotation_hop_cases, fun z t => rfl, ?_⟩
  intro s z t s2 hg h
  rcases rotation_hop_cases s z t s2 hg h with ⟨-, rfl⟩ | ⟨-, rfl⟩ | ⟨-, rfl⟩
  · exact ⟨Or.inr (Or.inl rfl), by decide⟩
  · exact ⟨Or.inr (Or.inr rfl), by decide⟩
  · exact ⟨Or.inl rfl, by decide⟩

/-- Witness for C5: the ApproachZone → BleedSpeed transition at
speed_h = 21. -/
theorem C5_state_machine_witness :
    (ApproachObj = ApproachObj ∧ BleedSpeedObj = BleedSpeedObj) ∨
      (ApproachObj = ApproachObj ∧ BleedSpeedObj = DescendObj) ∨
      (ApproachObj = BleedSpeedObj ∧ BleedSpeedObj = ApproachObj) :=
  C5_state_machine.2.1 ApproachObj zone0 ⟨0, 2000, 21, 0, 500, 0, 0⟩ BleedSpeedObj
    (Or.inl rfl) (by decide)

/-- C6 counterexample: over the zone at altitude 200 with vSpeed exactly
-18, ApproachZone's desired power is 4 (the code tests speed_v > -18), not
3 as the claim's boundary case states. -/
theorem C6_counterexample :
    Lander.altitude zone0 300 = 200
    ∧ Lander.is_over_landing_spot zone0 500
    ∧ StopOverLandingSpot.update_power zone0 ⟨500, 300, 0, -18, 500, 0, 0⟩ = 4
    ∧ ((4 : Rat) ≠ 3)
    ∧ State.control_power (StopOverLandingSpot.update_power zone0 ⟨500, 300, 0, -18, 500, 0, 0⟩) = 4
    ∧ ((4 : Int) ≠ 3) := by
  have hp : StopOverLandingSpot.update_power zone0 ⟨500, 300, 0, -18, 500, 0, 0⟩ = 4 := by
    norm_num [StopOverLandingSpot.update_power, Lander.altitude, Lander.is_over_landing_spot,
      LandingSpot.left, LandingSpot.right, LandingSpot.height, zone0]
  refine ⟨rfl, by decide, hp, by norm_num, ?_, by decide⟩
  rw [hp]
  norm_num [State.control_power, State.MIN_POWER, State.MAX_POWER, pyRound, rat_floor_eq_floor]

/-- C6 (amended): in ApproachZone, whenever it is not the case that
altitude < 100 with the lander off the zone, the desired power is 3 unless
vSpeed ≤ -18, in which case it is 4; in particular at exactly vSpeed = -18
the desired power is 4. -/
theorem C6_amended :
    ∀ (z : LandingSpot) (t : Telemetry),
      ¬ (Lander.altitude z t.y < 100 ∧ ¬ Lander.is_over_landing_spot z t.x) →
        (StopOverLandingSpot.update_power z t = if t.speed_v > -18 then 3 else 4)
        ∧ (t.speed_v = -18 → StopOverLandingSpot.update_power z t = 4) := by
  intro z t hc
  constructor
  · simp [StopOverLandingSpot.update_power, hc]
  · intro hv
    simp [StopOverLandingSpot.update_power, hc, hv]

/-- Witness for the amended C6 at altitude 200, over the zone, vSpeed -18. -/
theorem C6_amended_witness :
    (StopOverLandingSpot.update_power zone0 ⟨500, 300, 5, -18, 500, 0, 0⟩ =
        if (-18 : Int) > -18 then 3 else 4)
    ∧ ((-18 : Int) = -18 → StopOverLandingSpot.update_power zone0 ⟨500, 300, 5, -18, 500, 0, 0⟩ = 4) :=
  C6_amended zone0 ⟨500, 300, 5, -18, 500, 0, 0⟩ (by decide)

/-- C7 counterexample: rounding is not half-away-from-zero: pyRound (1/2)
is 0, not 1; in BleedSpeed at speed_h = 41 the desired rotation 20.5 emits
the command 20 where half-away-from-zero would emit 21. -/
theorem C7_counterexample :
    pyRound (1/2 : Rat) = 0
    ∧ ((0 : Int) ≠ 1)
    ∧ update_rotation 3 BleedSpeedObj zone0 ⟨1500, 2000, 41, 0, 500, 0, 0⟩ =
        some (BleedSpeedObj, (41 : Rat) * Stop.scale)
    ∧ State.control_rotate ((41 : Rat) * Stop.scale) = 20
    ∧ ((20 : Int) ≠ 21) := by
  refine ⟨by norm_num [pyRound, rat_floor_eq_floor], by decide, ?_, ?_, by decide⟩
  · norm_num [update_rotation, rotation_once, BleedSpeedObj, mkStop, Stop.cutoff]
  · norm_num [State.control_rotate, State.MAX_ROTATION, pyRound, rat_floor_eq_floor, Stop.scale]

/-- C7 (amended): the encoder's rounding `pyRound` is round-half-to-even:
it differs from its argument by at most 1/2 and returns an even integer on
exact halves (so 0.5 rounds to 0 and -0.5 rounds to 0). -/
theorem C7_amended :
    ∀ q : Rat,
      (q - (pyRound q : Rat) ≤ 1/2 ∧ (pyRound q : Rat) - q ≤ 1/2)
      ∧ ((q - (pyRound q : Rat) = 1/2 ∨ (pyRound q : Rat) - q = 1/2) → pyRound q % 2 = 0) := by
  intro q
  have hfl : ((⌊q⌋ : Int) : Rat) ≤ q := Int.floor_le q
  have hfl2 : q < (⌊q⌋ : Rat) + 1 := Int.lt_floor_add_one q
  unfold pyRound
  rw [rat_floor_eq_floor]
  split_ifs with h1 h2 h3
  · refine ⟨⟨by linarith, by linarith⟩, ?_⟩
    rintro (hc | hc) <;> [linarith; linarith]
  · refine ⟨⟨by push_cast; linarith, by push_cast; linarith⟩, ?_⟩
    rintro (hc | hc) <;> push_cast at hc <;> linarith
  · have heq : q - (⌊q⌋ : Rat) = 1/2 := le_antisymm (not_lt.mp h2) (not_lt.mp h1)
    refine ⟨⟨by linarith, by linarith⟩, fun _ => h3⟩
  · have heq : q - (⌊q⌋ : Rat) = 1/2 := le_antisymm (not_lt.mp h2) (not_lt.mp h1)
    refine ⟨⟨by push_cast; linarith, by push_cast; linarith⟩, fun _ => by omega⟩

/-- Witness for the amended C7 at the exact half 1/2. -/
theorem C7_amended_witness :
    pyRound (1/2 : Rat) % 2 = 0 :=
  (C7_amended (1/2)).2 (Or.inl (by norm_num [pyRound, rat_floor_eq_floor]))

/-- C8 counterexample: a vehicle left of the zone has a negative signed
distance: at x = 500 with the zone spanning [1000, 2000], the distance is
-500 (never 500) and ApproachZone's desired rotation is -20 with emitted
command -20, not 20 as the claim states. -/
theorem C8_counterexample :
    Lander.is_left_of_landing_spot ⟨⟨1000, 100⟩, ⟨2000, 100⟩⟩ 500
    ∧ Lander.distance_to_landing_spot ⟨⟨1000, 100⟩, ⟨2000, 100⟩⟩ 500 = some (-500)
    ∧ StopOverLandingSpot.move_towards_landing_spot ⟨⟨1000, 100⟩, ⟨2000, 100⟩⟩
        ⟨500, 2000, 0, 0, 500, 0, 0⟩ = some (-20)
    ∧ ((-20 : Rat) ≠ 20)
    ∧ (update_rotation 3 ApproachObj ⟨⟨1000, 100⟩, ⟨2000, 100⟩⟩ ⟨500, 2000, 0, 0, 500, 0, 0⟩).map
        (fun p => State.control_rotate p.2) = some (-20)
    ∧ ((-20 : Int) ≠ 20) := by
  refine ⟨by decide, by decide, ?_, by norm_num, ?_, by decide⟩
  · norm_num [StopOverLandingSpot.move_towards_landing_spot, Lander.is_left_of_landing_spot,
      Lander.distance_to_landing_spot, LandingSpot.left, LandingSpot.right,
      StopOverLandingSpot.MAX_SPEED, StopOverLandingSpot.scale]
  · have h1 : update_rotation 3 ApproachObj ⟨⟨1000, 100⟩, ⟨2000, 100⟩⟩
        ⟨500, 2000, 0, 0, 500, 0, 0⟩ = some (ApproachObj, (-20 : Rat)) := by
      norm_num [update_rotation, rotation_once, ApproachObj, mkStopOverLandingSpot,
        StopOverLandingSpot.is_too_fast, StopOverLandingSpot.MAX_SPEED,
        Lander.is_over_landing_spot, Lander.is_left_of_landing_spot,
        Lander.is_right_of_landing_spot, Lander.distance_to_landing_spot,
        LandingSpot.left, LandingSpot.right,
        StopOverLandingSpot.move_towards_landing_spot, StopOverLandingSpot.scale]
    rw [h1, Option.map_some']
    norm_num [State.control_rotate, State.MAX_ROTATION, pyRound, rat_floor_eq_floor]

/-- C8 (amended): left of the zone the signed distance is always negative
(so distanceToZone = 500 cannot occur there); with hSpeed = 0 and
distanceToZone = -500 the desired rotation is -500 * 0.04 = -20. -/
theorem C8_amended :
    (∀ (z : LandingSpot) (x : Int), Lander.is_left_of_landing_spot z x →
        ∀ d : Int, Lander.distance_to_landing_spot z x = some d → d < 0)
    ∧ (∀ (z : LandingSpot) (t : Telemetry), Lander.is_left_of_landing_spot z t.x →
        Lander.distance_to_landing_spot z t.x = some (-500) → t.speed_h = 0 →
          StopOverLandingSpot.move_towards_landing_spot z t = some (-20)) := by
  constructor
  · intro z x hl d hd
    simp only [Lander.distance_to_landing_spot, if_pos hl, Option.some.injEq] at hd
    simp only [Lander.is_left_of_landing_spot] at hl
    omega
  · intro z t hl hd hs
    have hss : t.speed_h < StopOverLandingSpot.MAX_SPEED := by
      rw [hs]; decide
    rw [StopOverLandingSpot.move_towards_landing_spot, if_pos hl, if_pos hss, hd]
    norm_num [StopOverLandingSpot.scale]

/-- Witness for the amended C8, 500 to the left of the zone [1000, 2000]. -/
theorem C8_amended_witness :
    StopOverLandingSpot.move_towards_landing_spot ⟨⟨1000, 100⟩, ⟨2000, 100⟩⟩
      ⟨500, 2000, 0, 5, 500, 0, 0⟩ = some (-20) :=
  C8_amended.2 ⟨⟨1000, 100⟩, ⟨2000, 100⟩⟩ ⟨500, 2000, 0, 5, 500, 0, 0⟩
    (by decide) (by decide) rfl

/-- C9 counterexample: over the zone (x = 500 in [0, 1000]) the distance
query completes normally with Python None (modelled `none`) instead of
failing fast; the spec-modelled fail-fast variant errors there. -/
theorem C9_counterexample :
    Lander.is_over_landing_spot zone0 500
    ∧ Lander.distance_to_landing_spot zone0 500 = none
    ∧ Lander.distance_to_landing_spot_fail_fast zone0 500 =
        Except.error "distance queried while over the landing spot" :=
  ⟨by decide, by decide, rfl⟩

/-- C9 (amended): querying the distance while over the zone silently
returns None (no exception is raised and no numeric distance is produced). -/
theorem C9_amended :
    ∀ (z : LandingSpot) (x : Int), Lander.is_over_landing_spot z x →
      Lander.distance_to_landing_spot z x = none
      ∧ ∀ d : Int, Lander.distance_to_landing_spot z x ≠ some d := by
  intro z x hov
  simp only [Lander.is_over_landing_spot] at hov
  have h1 : ¬ Lander.is_left_of_landing_spot z x := by
    simp only [Lander.is_left_of_landing_spot]
    omega
  have h2 : ¬ Lander.is_right_of_landing_spot z x := by
    simp only [Lander.is_right_of_landing_spot]
    omega
  refine ⟨?_, ?_⟩
  · simp [Lander.distance_to_landing_spot, h1, h2]
  · intro d
    simp [Lander.distance_to_landing_spot, h1, h2]

/-- Witness for the amended C9 at x = 500 over the zone [0, 1000]. -/
theorem C9_amended_witness :
    Lander.distance_to_landing_spot zone0 500 = none
    ∧ ∀ d : Int, Lander.distance_to_landing_spot zone0 500 ≠ some d :=
  C9_amended zone0 500 (by decide)

/-- C10: whatever next-state designator an ApproachZone constructor call
receives, the stored successor is Descend, the whole object is the canonical
ApproachZone object, and the over-the-zone safe-speed hand-off goes to
Descend; the object BleedSpeed passes back (built with None) is that same
object. -/
theorem C10_forced_descend :
    (∀ next : Option StateCls, (mkStopOverLandingSpot next).next_state = some StateCls.descend
      ∧ mkStopOverLandingSpot next = ApproachObj)
    ∧ (∀ (next : Option StateCls) (z : LandingSpot) (t : Telemetry),
        Lander.is_over_landing_spot z t.x → StopOverLandingSpot.has_safe_speed t.speed_h →
          rotation_once (mkStopOverLandingSpot next) z t = some (Sum.inl DescendObj))
    ∧ (∀ (z : LandingSpot) (t : Telemetry), -20 ≤ t.speed_h → t.speed_h ≤ 20 →
        rotation_once BleedSpeedObj z t = some (Sum.inl (mkStopOverLandingSpot none))) := by
  refine ⟨fun next => ⟨rfl, rfl⟩, ?_, ?_⟩
  · intro next z t hov hsafe
    have hnf : ¬ StopOverLandingSpot.is_too_fast t.speed_h := not_not_intro hsafe
    simp [rotation_once, mkStopOverLandingSpot, hnf, hov, hsafe, instantiate1,
      DescendObj, mkDescend]
  · intro z t h1 h2
    have hc : -Stop.cutoff ≤ t.speed_h ∧ t.speed_h ≤ Stop.cutoff := by
      constructor <;> simp only [Stop.cutoff] <;> omega
    simp [rotation_once, BleedSpeedObj, mkStop, hc, instantiate2]

/-- Witness for C10 with the designator Stop, which is nevertheless
overridden to Descend. -/
theorem C10_forced_descend_witness :
    rotation_once (mkStopOverLandingSpot (some StateCls.stop)) zone0 ⟨500, 2000, 0, 0, 500, 0, 0⟩
      = some (Sum.inl DescendObj) :=
  C10_forced_descend.2.1 (some StateCls.stop) zone0 ⟨500, 2000, 0, 0, 500, 0, 0⟩
    (by decide) (by decide)
